import Mathlib

/-!
Verification development for the `project_trampoline_pong` repository
(`pong.py` and `ai_opponents.py`).

The two Python source files are shallowly embedded below:
* pygame `Rect` objects become a `Rect` structure of integers; the pygame
  accessors (`left`, `right`, `top`, `bottom`, `centerx`, `centery`) and the
  pygame overlap test `colliderect` are modelled with the semantics of
  pygame's C implementation (half-extents via floored division, strict
  inequalities for overlap).
* Python machine integers become `Int`, Python `float` values flowing through
  the prediction/benchmark arithmetic are modelled by exact rationals `ℚ`
  (the operations used are division, multiplication, comparison, `%` and
  `int(...)` truncation).
* the process-wide `random` module is modelled by an oracle structure `Rng`
  together with a draw counter: each call into the random library consumes
  one index.  `random.choice` on an n-element list is the list indexed by
  the drawn index, `random.random() < 0.18` is a drawn boolean,
  `random.randint(2, 4)` is `2 +` a drawn index below 3.
* fallible Python calls are `Except`; a `try/except Exception` block becomes
  a `match` on the `Except` value.
-/

namespace Pong

/-- A pygame `Rect`: top-left corner plus width and height, all integers. -/
structure Rect where
  x : Int
  y : Int
  w : Int
  h : Int
deriving DecidableEq, Repr

/-- pygame accessor `rect.left`. -/
def Rect.left (r : Rect) : Int := r.x

/-- pygame accessor `rect.right`. -/
def Rect.right (r : Rect) : Int := r.x + r.w

/-- pygame accessor `rect.top`. -/
def Rect.top (r : Rect) : Int := r.y

/-- pygame accessor `rect.bottom`. -/
def Rect.bottom (r : Rect) : Int := r.y + r.h

/-- pygame accessor `rect.centerx` (`x + w >> 1` in the C source, i.e. a
floored halving of the width). -/
def Rect.centerx (r : Rect) : Int := r.x + r.w.fdiv 2

/-- pygame accessor `rect.centery`. -/
def Rect.centery (r : Rect) : Int := r.y + r.h.fdiv 2

/-- pygame `a.colliderect b`: strict overlap on both axes. -/
def collide (a b : Rect) : Bool :=
  decide (a.x < b.x + b.w) && decide (a.x + a.w > b.x) &&
  decide (a.y < b.y + b.h) && decide (a.y + a.h > b.y)

/-! Window and game settings (`pong.py` lines 30-51). -/

def WIDTH : Int := 800
def HEIGHT : Int := 500
def FPS : Int := 60
def WIN_SCORE : Nat := 7
def DEFAULT_MAX_MATCH_FRAMES : Nat := 2700
def BENCHMARK_MAX_BALL_X_SPEED : Nat := 20
def BENCHMARK_MAX_BALL_Y_SPEED : Nat := 14
def PADDLE_WIDTH : Int := 12
def PADDLE_HEIGHT : Int := 90
def PADDLE_SPEED : Int := 6
def BALL_SIZE : Int := 14
def BALL_START_SPEED : Int := 5
def BALL_MAX_Y_SPEED : Int := 7

/-- Oracle view of the process-wide `random` module.  Each call into the
library consumes one index of the appropriate stream:
`bit n` is the index (`false` = element 0, `true` = element 1) drawn by the
n-th random call when it is `random.choice` over a two-element list;
`trit n` is the index drawn when it is a choice among three possibilities
(`random.choice` over a three-element list, or `random.randint(2, 4) - 2`);
`coin18 n` is the outcome of the comparison `random.random() < 0.18`. -/
structure Rng where
  bit : Nat → Bool
  trit : Nat → Fin 3
  coin18 : Nat → Bool

/-- `random.choice([a, b])`: the element of the two-element list selected by
the drawn index. -/
def pychoice2 (a b : Int) (i : Bool) : Int := if i then b else a

/-- `random.choice([a, b, c])`. -/
def pychoice3 (a b c : Int) (i : Fin 3) : Int :=
  if i = 0 then a else if i = 1 then b else c

/-- Python `int(q)` on a float: truncation toward zero. -/
def pyInt (q : ℚ) : Int := if 0 ≤ q then ⌊q⌋ else ⌈q⌉

/-- Python `a % b` on floats (`b > 0` in every use): `a - b * floor (a / b)`. -/
def pymod (a b : ℚ) : ℚ := a - b * ⌊a / b⌋

/-! ## `ai_opponents.py` -/

/-- Move constants (`ai_opponents.py` lines 9-11). -/
def MOVE_UP : Int := -1
def MOVE_STAY : Int := 0
def MOVE_DOWN : Int := 1

/-- The `GameState` namedtuple: one frame's snapshot from one paddle's
perspective (`ai_opponents.py` lines 29-34). -/
structure GameState where
  window_width : Int
  window_height : Int
  paddle_height : Int
  paddle_speed : Int
  my_side : String
  my_paddle_x : Int
  my_paddle_y : Int
  opponent_paddle_x : Int
  opponent_paddle_y : Int
  ball_x : Int
  ball_y : Int
  ball_vx : Int
  ball_vy : Int
deriving DecidableEq, Repr

/-- `is_ball_moving_toward_me` (`ai_opponents.py` lines 41-44). -/
def is_ball_moving_toward_me (state : GameState) : Bool :=
  if state.my_side = "right" then decide (state.ball_vx > 0)
  else decide (state.ball_vx < 0)

/-- `reflect_y` (`ai_opponents.py` lines 47-55): reflect a y value into
`[0, height]` as if bouncing on the top/bottom walls. -/
def reflect_y (y_value height : ℚ) : ℚ :=
  if height ≤ 0 then 0
  else
    let period := 2 * height
    let reflected := pymod y_value period
    if reflected > height then period - reflected else reflected

/-- `predict_intercept_y` (`ai_opponents.py` lines 58-66). -/
def predict_intercept_y (state : GameState) : ℚ :=
  if state.ball_vx = 0 then (state.ball_y : ℚ)
  else
    let steps : ℚ := ((state.my_paddle_x - state.ball_x : Int) : ℚ) / (state.ball_vx : ℚ)
    if steps < 0 then (state.ball_y : ℚ)
    else reflect_y ((state.ball_y : ℚ) + (state.ball_vy : ℚ) * steps) (state.window_height : ℚ)

/-- `student_ai_choose_move` (`ai_opponents.py` lines 71-128). -/
def student_ai_choose_move (state : GameState) : Int :=
  let paddle_center := state.my_paddle_y + state.paddle_height.fdiv 2
  let screen_center := state.window_height.fdiv 2
  if state.my_paddle_y ≤ 0 then MOVE_STAY
  else if state.my_paddle_y + state.paddle_height ≥ state.window_height then MOVE_STAY
  else if is_ball_moving_toward_me state then
    let horizontal_distance := (state.my_paddle_x - state.ball_x).natAbs
    let target_y : ℚ :=
      if horizontal_distance < 120 then (state.ball_y : ℚ) else predict_intercept_y state
    let dead_zone : ℚ := if state.ball_vy.natAbs ≥ 6 then 8 else 14
    if target_y < (paddle_center : ℚ) - dead_zone then MOVE_UP
    else if target_y > (paddle_center : ℚ) + dead_zone then MOVE_DOWN
    else MOVE_STAY
  else if paddle_center < screen_center - 12 then MOVE_DOWN
  else if paddle_center > screen_center + 12 then MOVE_UP
  else MOVE_STAY

/-- `tracking_ai_choose_move` (`ai_opponents.py` lines 133-147). -/
def tracking_ai_choose_move (state : GameState) : Int :=
  let paddle_center := state.my_paddle_y + state.paddle_height.fdiv 2
  let target_y :=
    if is_ball_moving_toward_me state then state.ball_y else state.window_height.fdiv 2
  if target_y < paddle_center - 8 then MOVE_UP
  else if target_y > paddle_center + 8 then MOVE_DOWN
  else MOVE_STAY

/-- The strategy function slot of the tuple returned by `create_ai`.  The
reference strategy carries the closure variables `hold_frames` and
`last_move` of `make_reference_ai`. -/
inductive AIFun where
  | tracking
  | random
  | student
  | reference (hold_frames : Int) (last_move : Int)
deriving DecidableEq, Repr

/-- Calling the underlying strategy function: `random_ai_choose_move`
(`ai_opponents.py` lines 150-152) and the closure produced by
`make_reference_ai` (lines 155-195) consume random draws; the result is the
move together with the updated closure state and draw counter. -/
def AIFun.call (rng : Rng) (idx : Nat) (f : AIFun) (state : GameState) : Int × AIFun × Nat :=
  match f with
  | .tracking => (tracking_ai_choose_move state, .tracking, idx)
  | .student => (student_ai_choose_move state, .student, idx)
  | .random => (pychoice3 MOVE_UP MOVE_STAY MOVE_DOWN (rng.trit idx), .random, idx + 1)
  | .reference hold_frames last_move =>
    if hold_frames > 0 then
      (last_move, .reference (hold_frames - 1) last_move, idx)
    else
      let paddle_center := state.my_paddle_y + state.paddle_height.fdiv 2
      let target_y :=
        if is_ball_moving_toward_me state then state.ball_y
        else state.window_height.fdiv 2
      let dead_zone : Int := 24
      let move0 : Int :=
        if target_y < paddle_center - dead_zone then MOVE_UP
        else if target_y > paddle_center + dead_zone then MOVE_DOWN
        else MOVE_STAY
      let mistake := rng.coin18 idx
      let move1 :=
        if mistake then pychoice3 MOVE_UP MOVE_STAY MOVE_DOWN (rng.trit (idx + 1)) else move0
      let idx1 := if mistake then idx + 2 else idx + 1
      let hold1 : Int := 2 + ((rng.trit idx1 : Nat) : Int)
      (move1, .reference hold1 move1, idx1 + 1)

/-- `normalize_move` (`ai_opponents.py` lines 198-204): coerce any integer
move into -1, 0 or 1. -/
def normalize_move (move : Int) : Int :=
  if move < 0 then MOVE_UP
  else if move > 0 then MOVE_DOWN
  else MOVE_STAY

/-- Python `str.strip().lower()` on the AI name (ASCII data, as in the CLI
choices): drop whitespace on both ends, then lowercase each character. -/
def pyStripLower (s : String) : List Char :=
  ((((s.data.dropWhile Char.isWhitespace).reverse.dropWhile Char.isWhitespace).reverse).map
    Char.toLower)

/-- `create_ai` (`ai_opponents.py` lines 207-218).  As written in the source
it returns the plain **tuple** `(choose_move_function, display_name)` — not
an object — or raises `ValueError` for an unknown name. -/
def create_ai (name : String) : Except String (AIFun × String) :=
  let key := pyStripLower name
  if key = "tracking".data then .ok (.tracking, "TrackingAI")
  else if key = "reference".data then .ok (.reference 0 MOVE_STAY, "ReferenceAI")
  else if key = "random".data then .ok (.random, "RandomAI")
  else if key = "student".data then .ok (.student, "StudentAI")
  else .error "Unknown AI. Choose from: tracking, reference, random, student"

/-- Python errors distinguished by the embedding. -/
inductive PyErr where
  | attributeError
  | valueError (msg : String)
deriving DecidableEq, Repr

/-- The Match Runner's per-frame decision invocation `ai.choose_move(state)`
on the value returned by `create_ai`.  That value is a Python tuple, and a
tuple has no attribute `choose_move`, so the attribute lookup raises
`AttributeError` before any strategy code can run. -/
def tupleDecisionCall (_ai : AIFun × String) (_state : GameState) : Except PyErr Int :=
  Except.error PyErr.attributeError

/-! ## `pong.py`: Physics/Scoring Engine -/

/-- `clamp_paddle` (`pong.py` lines 112-117): keep a paddle inside the
window.  The two pygame setters `top = 0` and `bottom = HEIGHT` assign the
`y` coordinate. -/
def clamp_paddle (p : Rect) : Rect :=
  let p := if p.top < 0 then { p with y := 0 } else p
  if p.bottom > HEIGHT then { p with y := HEIGHT - p.h } else p

/-- Result of `reset_ball`: the recentred ball, the fresh velocity and the
advanced random-draw counter. -/
structure ResetResult where
  ball : Rect
  vx : Int
  vy : Int
  idx : Nat
deriving DecidableEq, Repr

/-- `reset_ball` (`pong.py` lines 120-127): move the ball to the window
center (the pygame `center` setter subtracts the floored half extents) and
draw a fresh diagonal velocity, one `random.choice([-1, 1])` per axis. -/
def reset_ball (ball : Rect) (rng : Rng) (idx : Nat) : ResetResult :=
  let ball := { ball with
    x := WIDTH.fdiv 2 - ball.w.fdiv 2,
    y := HEIGHT.fdiv 2 - ball.h.fdiv 2 }
  let x_direction := pychoice2 (-1) 1 (rng.bit idx)
  let y_direction := pychoice2 (-1) 1 (rng.bit (idx + 1))
  ⟨ball, BALL_START_SPEED * x_direction, BALL_START_SPEED * y_direction, idx + 2⟩

/-- `move_right_paddle_with_ai` (`pong.py` lines 158-165). -/
def move_right_paddle_with_ai (p : Rect) (ai_move : Int) : Rect :=
  clamp_paddle { p with y := p.y + normalize_move ai_move * PADDLE_SPEED }

/-- `move_left_paddle_with_ai` (`pong.py` lines 168-171). -/
def move_left_paddle_with_ai (p : Rect) (ai_move : Int) : Rect :=
  clamp_paddle { p with y := p.y + normalize_move ai_move * PADDLE_SPEED }

/-- `build_ai_state` (`pong.py` lines 174-200).  In every call site `side`
is the literal `"left"` or `"right"`, so the `ValueError` guard for other
values can never fire and the embedding is total. -/
def build_ai_state (side : String) (my_paddle opponent_paddle ball_rect : Rect)
    (ball_vx ball_vy : Int) : GameState :=
  { window_width := WIDTH
    window_height := HEIGHT
    paddle_height := PADDLE_HEIGHT
    paddle_speed := PADDLE_SPEED
    my_side := side
    my_paddle_x := my_paddle.x
    my_paddle_y := my_paddle.y
    opponent_paddle_x := opponent_paddle.x
    opponent_paddle_y := opponent_paddle.y
    ball_x := ball_rect.centerx
    ball_y := ball_rect.centery
    ball_vx := ball_vx
    ball_vy := ball_vy }

/-- The two independent clamping `if` statements of `bounce_off_paddle`
(`pong.py` lines 213-216): keep the vertical speed within
`±BALL_MAX_Y_SPEED`. -/
def clampY (vy : Int) : Int :=
  let vy := if vy > BALL_MAX_Y_SPEED then BALL_MAX_Y_SPEED else vy
  if vy < -BALL_MAX_Y_SPEED then -BALL_MAX_Y_SPEED else vy

/-- `bounce_off_paddle` (`pong.py` lines 203-218): flip the horizontal
direction, add `int(relative_hit * 3)` to the vertical speed — where
`relative_hit` is the float `(ball.centery - paddle.centery) / (PADDLE_HEIGHT / 2)`
— then clamp the vertical speed. -/
def bounce_off_paddle (ball_rect paddle_rect : Rect) (vx vy : Int) : Int × Int :=
  let vx := -vx
  let relative_hit : ℚ :=
    ((ball_rect.centery - paddle_rect.centery : Int) : ℚ) / ((PADDLE_HEIGHT : ℚ) / 2)
  (vx, clampY (vy + pyInt (relative_hit * 3)))

/-- Everything `update_ball` reads and writes: the three (mutable in Python)
rectangles, the velocity and scores it returns, and the random-draw counter
advanced by a possible `reset_ball`. -/
structure BallUpdate where
  ball : Rect
  left_paddle : Rect
  right_paddle : Rect
  vx : Int
  vy : Int
  left_score : Nat
  right_score : Nat
  idx : Nat
deriving DecidableEq, Repr

/-- The scoring tail of `update_ball` (`pong.py` lines 246-254), reached
with the ball/velocity produced by the collision handling. -/
def update_ball_scoring (ball left_paddle right_paddle : Rect) (vx vy : Int)
    (left_score right_score : Nat) (rng : Rng) (idx : Nat) : BallUpdate :=
  if ball.left ≤ 0 then
    let r := reset_ball ball rng idx
    ⟨r.ball, left_paddle, right_paddle, r.vx, r.vy, left_score, right_score + 1, r.idx⟩
  else if ball.right ≥ WIDTH then
    let r := reset_ball ball rng idx
    ⟨r.ball, left_paddle, right_paddle, r.vx, r.vy, left_score + 1, right_score, r.idx⟩
  else
    ⟨ball, left_paddle, right_paddle, vx, vy, left_score, right_score, idx⟩

/-- `update_ball` (`pong.py` lines 221-254): move the ball, bounce off the
top/bottom walls, handle the direction-gated paddle collisions (`if` /
`elif`), then score.  The Python function mutates `ball_rect` in place and
returns `(vx, vy, left_score, right_score)`; the embedding returns all of
the state it touches (including the two paddle rectangles it only reads). -/
def update_ball (ball_rect left_paddle right_paddle : Rect) (vx vy : Int)
    (left_score right_score : Nat) (rng : Rng) (idx : Nat) : BallUpdate :=
  let ball := { ball_rect with x := ball_rect.x + vx, y := ball_rect.y + vy }
  let vy := if ball.top ≤ 0 ∨ ball.bottom ≥ HEIGHT then -vy else vy
  if collide ball left_paddle ∧ vx < 0 then
    let ball := { ball with x := left_paddle.right }
    let b := bounce_off_paddle ball left_paddle vx vy
    update_ball_scoring ball left_paddle right_paddle b.1 b.2 left_score right_score rng idx
  else if collide ball right_paddle ∧ vx > 0 then
    let ball := { ball with x := right_paddle.left - ball.w }
    let b := bounce_off_paddle ball right_paddle vx vy
    update_ball_scoring ball left_paddle right_paddle b.1 b.2 left_score right_score rng idx
  else
    update_ball_scoring ball left_paddle right_paddle vx vy left_score right_score rng idx

/-! ## `pong.py`: Match Runner -/

/-- The 4-tuple returned by `run_single_ai_match`:
`(winner, left_score, right_score, reason)`. -/
structure MatchOutcome where
  winner : String
  left_score : Nat
  right_score : Nat
  reason : String
deriving DecidableEq, Repr

/-- The authoritative state owned by the match loop: the objects from
`create_match_objects`, the scores, the frame counter, the two controller
values and the random-draw counter. -/
structure MatchState (α β : Type) where
  left_paddle : Rect
  right_paddle : Rect
  ball : Rect
  vx : Int
  vy : Int
  left_score : Nat
  right_score : Nat
  frame_count : Nat
  left_ctrl : α
  right_ctrl : β
  idx : Nat

/-- The left side's snapshot built at the top of each loop iteration
(`pong.py` line 330). -/
def leftSnapshot {α β : Type} (s : MatchState α β) : GameState :=
  build_ai_state "left" s.left_paddle s.right_paddle s.ball s.vx s.vy

/-- The right side's snapshot (`pong.py` line 331). -/
def rightSnapshot {α β : Type} (s : MatchState α β) : GameState :=
  build_ai_state "right" s.right_paddle s.left_paddle s.ball s.vx s.vy

/-- One iteration of the match loop either returns from the function
(controller error) or produces the next loop state. -/
inductive StepResult (α β : Type) where
  | done (o : MatchOutcome)
  | next (s : MatchState α β)

/-- The body of the `while` loop of `run_single_ai_match` (`pong.py` lines
330-363).  A controller is an arbitrary fallible decision function
`α → GameState → Except PyErr (Int × α)` (`α` is the controller's private
state; any randomness a controller uses is part of that state).  The two
`try/except Exception` blocks become matches on the `Except` values: an
error from the left call returns `("right", ..., "left_ai_error")` before
anything moves, an error from the right call returns
`("left", ..., "right_ai_error")` before anything moves.  Otherwise both
paddles move, `update_ball` advances the physics, and the benchmark rally
acceleration bumps the speed after a non-scoring paddle hit. -/
def matchStep {α β : Type} (fL : α → GameState → Except PyErr (Int × α))
    (fR : β → GameState → Except PyErr (Int × β)) (rng : Rng) (s : MatchState α β) :
    StepResult α β :=
  match fL s.left_ctrl (leftSnapshot s) with
  | .error _ => .done ⟨"right", s.left_score, s.right_score, "left_ai_error"⟩
  | .ok lr =>
    match fR s.right_ctrl (rightSnapshot s) with
    | .error _ => .done ⟨"left", s.left_score, s.right_score, "right_ai_error"⟩
    | .ok rr =>
      let left_move := normalize_move lr.1
      let right_move := normalize_move rr.1
      let lp := move_left_paddle_with_ai s.left_paddle left_move
      let rp := move_right_paddle_with_ai s.right_paddle right_move
      let u := update_ball s.ball lp rp s.vx s.vy s.left_score s.right_score rng s.idx
      let scored : Bool :=
        (u.left_score != s.left_score) || (u.right_score != s.right_score)
      let paddle_hit : Bool := !scored && decide (s.vx * u.vx < 0)
      let vx1 :=
        if paddle_hit ∧ u.vx.natAbs < BENCHMARK_MAX_BALL_X_SPEED then
          u.vx + (if u.vx > 0 then 1 else -1)
        else u.vx
      let vy1 :=
        if paddle_hit ∧ u.vy ≠ 0 ∧ u.vy.natAbs < BENCHMARK_MAX_BALL_Y_SPEED then
          u.vy + (if u.vy > 0 then 1 else -1)
        else u.vy
      .next { left_paddle := lp, right_paddle := rp, ball := u.ball,
              vx := vx1, vy := vy1,
              left_score := u.left_score, right_score := u.right_score,
              frame_count := s.frame_count + 1,
              left_ctrl := lr.2, right_ctrl := rr.2, idx := u.idx }

/-- The `return` statements after the loop (`pong.py` lines 365-369). -/
def finishOutcome {α β : Type} (s : MatchState α β) : MatchOutcome :=
  if s.left_score > s.right_score then ⟨"left", s.left_score, s.right_score, "score"⟩
  else if s.right_score > s.left_score then ⟨"right", s.left_score, s.right_score, "score"⟩
  else ⟨"draw", s.left_score, s.right_score, "frame_limit"⟩

/-- The `while` loop of `run_single_ai_match` (`pong.py` line 329), with an
explicit fuel argument to make the recursion structural.  Entered with
`fuel = max_frames` (and `frame_count = 0`), the fuel can only run out when
`frame_count` has reached `max_frames` — every iteration increments
`frame_count` by exactly one — so the `fuel = 0` case returns exactly what
the `while` guard would return. -/
def matchLoopAux {α β : Type} (fL : α → GameState → Except PyErr (Int × α))
    (fR : β → GameState → Except PyErr (Int × β)) (max_frames : Nat) (rng : Rng) :
    Nat → MatchState α β → MatchOutcome × MatchState α β
  | 0, s => (finishOutcome s, s)
  | fuel + 1, s =>
    if s.left_score < WIN_SCORE ∧ s.right_score < WIN_SCORE ∧ s.frame_count < max_frames then
      match matchStep fL fR rng s with
      | .done o => (o, s)
      | .next s1 => matchLoopAux fL fR max_frames rng fuel s1
    else (finishOutcome s, s)

/-- `create_match_objects` (`pong.py` lines 301-312) packaged as the initial
match state: paddles at mid-height, ball reset to the center with a fresh
random velocity (consuming the first two random draws). -/
def initMatchState {α β : Type} (a : α) (b : β) (rng : Rng) : MatchState α β :=
  let left_paddle : Rect :=
    ⟨30, HEIGHT.fdiv 2 - PADDLE_HEIGHT.fdiv 2, PADDLE_WIDTH, PADDLE_HEIGHT⟩
  let right_paddle : Rect :=
    ⟨WIDTH - 30 - PADDLE_WIDTH, HEIGHT.fdiv 2 - PADDLE_HEIGHT.fdiv 2, PADDLE_WIDTH, PADDLE_HEIGHT⟩
  let r := reset_ball ⟨0, 0, BALL_SIZE, BALL_SIZE⟩ rng 0
  { left_paddle := left_paddle, right_paddle := right_paddle, ball := r.ball,
    vx := r.vx, vy := r.vy, left_score := 0, right_score := 0, frame_count := 0,
    left_ctrl := a, right_ctrl := b, idx := r.idx }

/-- A full match of the Match Runner loop over two arbitrary controllers:
the loop of `run_single_ai_match` run from the initial objects, returning
the outcome together with the final loop state. -/
def runMatch {α β : Type} (fL : α → GameState → Except PyErr (Int × α))
    (fR : β → GameState → Except PyErr (Int × β)) (a : α) (b : β)
    (max_frames : Nat) (rng : Rng) : MatchOutcome × MatchState α β :=
  matchLoopAux fL fR max_frames rng max_frames (initMatchState a b rng)

/-- The controller values actually used by `run_single_ai_match`: the tuples
returned by `create_ai`, invoked through the (failing) attribute lookup
`ai.choose_move(state)` modelled by `tupleDecisionCall`. -/
def tupleCtrl : (AIFun × String) → GameState → Except PyErr (Int × (AIFun × String)) :=
  fun t state =>
    match tupleDecisionCall t state with
    | .error e => .error e
    | .ok m => .ok (m, t)

/-- `run_single_ai_match` (`pong.py` lines 315-369): build the two AIs with
`create_ai` (a `ValueError` there propagates — hence `Except String`), build
the match objects, and run the headless loop. -/
def run_single_ai_match (left_ai_name right_ai_name : String) (max_frames : Nat)
    (rng : Rng) : Except String MatchOutcome :=
  match create_ai left_ai_name with
  | .error e => .error e
  | .ok left_ai =>
    match create_ai right_ai_name with
    | .error e => .error e
    | .ok right_ai =>
      .ok (runMatch tupleCtrl tupleCtrl left_ai right_ai max_frames rng).1

/-! ## Concrete controllers and random streams used for witnesses -/

/-- A controller that always answers "stay" (move 0) and never fails. -/
def alwaysStay : Unit → GameState → Except PyErr (Int × Unit) := fun _ _ => .ok (0, ())

/-- A controller that always answers "up" (move -1) and never fails. -/
def alwaysUp : Unit → GameState → Except PyErr (Int × Unit) := fun _ _ => .ok (-1, ())

/-- A controller whose decision call always raises. -/
def alwaysRaise : Unit → GameState → Except PyErr (Int × Unit) :=
  fun _ _ => .error .attributeError

/-- A fixed random stream: every two-way choice takes the second element
(direction `+1`), every three-way choice takes the first, every
`random.random() < 0.18` test fails. -/
def constRng : Rng := ⟨fun _ => true, fun _ => 0, fun _ => false⟩

/-! ## `pong.py`: Benchmark Aggregator -/

/-- The command-line options consumed by `run_benchmark`.  The Python
attribute `args.matches` is named `num_matches` here because `matches` is a
reserved word in Lean. -/
structure BenchArgs where
  num_matches : Int
  pass_win_rate : ℚ
  max_match_frames : Int
  seed : Int

/-- The number of the first `n` match outcomes won by side `w`
(the tally `if winner == ...` of `pong.py` lines 388-393). -/
def countWinner (results : Nat → MatchOutcome) (n : Nat) (w : String) : Nat :=
  (List.range n).countP (fun i => (results i).winner == w)

/-- The number of the first `n` match outcomes whose reason is
`"right_ai_error"` (the `student_errors` tally of `pong.py` lines 395-396). -/
def countStudentErrors (results : Nat → MatchOutcome) (n : Nat) : Nat :=
  (List.range n).countP (fun i => (results i).reason == "right_ai_error")

/-- `run_benchmark` (`pong.py` lines 372-424), abstracted over the per-match
outcomes: `results i` stands for the value of
`run_single_ai_match("reference", "student", max_frames)` after the
reseeding `random.seed(args.seed + i)` (the byte-exact Mersenne-Twister
reseeding is outside the embedding; the claims settled against this
definition concern only the tallying and the verdict).  The Python float
arithmetic — one division and one comparison — is modelled by exact
rationals.  Of the printed lines only the final verdict line is modelled;
the result is `(exit code, verdict line)`. -/
def run_benchmark (args : BenchArgs) (results : Nat → MatchOutcome) : Int × String :=
  let n_matches := (max 1 args.num_matches).toNat
  let pass_win_rate := min (max args.pass_win_rate 0) 1
  let minimum_decisive : Nat := max 5 (n_matches / 4)
  let student_wins := countWinner results n_matches "right"
  let reference_wins := countWinner results n_matches "left"
  let student_errors := countStudentErrors results n_matches
  let decisive_matches := student_wins + reference_wins
  let decisive_win_rate : ℚ :=
    if decisive_matches > 0 then (student_wins : ℚ) / (decisive_matches : ℚ) else 0
  if minimum_decisive ≤ decisive_matches ∧ pass_win_rate ≤ decisive_win_rate ∧
      student_errors = 0 then
    (0, "Result: PASS")
  else
    (1, "Result: FAIL")

/-- The pass condition exactly as the specification words it (for claim C5,
to be compared with `run_benchmark`): the decisive-match count (candidate
wins + reference wins) is at least `max(5, matches/4 floored)`; the
decisive win rate — candidate wins divided by decisive matches, taken as 0
when there are no decisive matches — is at least the configured required
rate; and there are zero candidate-controller errors. -/
def benchmark_pass_spec (args : BenchArgs) (results : Nat → MatchOutcome) : Bool :=
  let n_matches := args.num_matches.toNat
  let candidate_wins := countWinner results n_matches "right"
  let reference_wins := countWinner results n_matches "left"
  let decisive := candidate_wins + reference_wins
  let rate : ℚ := if decisive = 0 then 0 else (candidate_wins : ℚ) / (decisive : ℚ)
  decide (max 5 (n_matches / 4) ≤ decisive) &&
    decide (args.pass_win_rate ≤ rate) &&
    decide (countStudentErrors results n_matches = 0)

/-- A benchmark configuration fixture: 25 matches, required rate 0.60. -/
def benchArgsFixture : BenchArgs := ⟨25, 3 / 5, 2700, 2026⟩

/-- A per-match outcome fixture: the candidate (right side) wins 16, the
reference wins 4, 5 draws, no controller errors. -/
def benchResultsFixture : Nat → MatchOutcome := fun i =>
  if i < 16 then ⟨"right", 3, 7, "score"⟩
  else if i < 20 then ⟨"left", 7, 2, "score"⟩
  else ⟨"draw", 3, 3, "frame_limit"⟩

/-- Like `benchResultsFixture`, but the first match ends in a
candidate-controller error (an automatic reference win). -/
def benchResultsErrFixture : Nat → MatchOutcome := fun i =>
  if i = 0 then ⟨"left", 0, 0, "right_ai_error"⟩ else benchResultsFixture i

/-! ## Loop lemmas -/

/-- `update_ball` changes the score of at most one side, by exactly one. -/
theorem update_ball_score_change (ball lp rp : Rect) (vx vy : Int) (ls rs : Nat)
    (rng : Rng) (idx : Nat) :
    ((update_ball ball lp rp vx vy ls rs rng idx).left_score = ls ∧
      (update_ball ball lp rp vx vy ls rs rng idx).right_score = rs) ∨
    ((update_ball ball lp rp vx vy ls rs rng idx).left_score = ls + 1 ∧
      (update_ball ball lp rp vx vy ls rs rng idx).right_score = rs) ∨
    ((update_ball ball lp rp vx vy ls rs rng idx).left_score = ls ∧
      (update_ball ball lp rp vx vy ls rs rng idx).right_score = rs + 1) := by
  simp only [update_ball, update_ball_scoring]
  split_ifs <;> simp

/-- A completed loop iteration increments the frame counter by exactly one
and changes the score of at most one side, by exactly one. -/
theorem matchStep_next_props {α β : Type} (fL : α → GameState → Except PyErr (Int × α))
    (fR : β → GameState → Except PyErr (Int × β)) (rng : Rng) (s s1 : MatchState α β)
    (h : matchStep fL fR rng s = .next s1) :
    s1.frame_count = s.frame_count + 1 ∧
    ((s1.left_score = s.left_score ∧ s1.right_score = s.right_score) ∨
     (s1.left_score = s.left_score + 1 ∧ s1.right_score = s.right_score) ∨
     (s1.left_score = s.left_score ∧ s1.right_score = s.right_score + 1)) := by
  unfold matchStep at h
  rcases hL : fL s.left_ctrl (leftSnapshot s) with e | lr <;> rw [hL] at h
  · simp at h
  · rcases hR : fR s.right_ctrl (rightSnapshot s) with e | rr <;> rw [hR] at h
    · simp at h
    · simp only [StepResult.next.injEq] at h
      subst h
      exact ⟨rfl, update_ball_score_change _ _ _ _ _ _ _ _ _⟩

/-- An aborted loop iteration reports a controller error for one of the two
sides, with the scores held by the state at the start of the iteration. -/
theorem matchStep_done_cases {α β : Type} (fL : α → GameState → Except PyErr (Int × α))
    (fR : β → GameState → Except PyErr (Int × β)) (rng : Rng) (s : MatchState α β)
    (o : MatchOutcome) (h : matchStep fL fR rng s = .done o) :
    o = ⟨"right", s.left_score, s.right_score, "left_ai_error"⟩ ∨
    o = ⟨"left", s.left_score, s.right_score, "right_ai_error"⟩ := by
  unfold matchStep at h
  rcases hL : fL s.left_ctrl (leftSnapshot s) with e | lr <;> rw [hL] at h
  · left
    simp only [StepResult.done.injEq] at h
    exact h.symm
  · rcases hR : fR s.right_ctrl (rightSnapshot s) with e | rr <;> rw [hR] at h
    · right
      simp only [StepResult.done.injEq] at h
      exact h.symm
    · simp at h

/-- The frame counter of the final loop state is bounded by the starting
counter plus the fuel. -/
theorem matchLoopAux_frame_le {α β : Type} (fL : α → GameState → Except PyErr (Int × α))
    (fR : β → GameState → Except PyErr (Int × β)) (max_frames : Nat) (rng : Rng) :
    ∀ (fuel : Nat) (s : MatchState α β),
      (matchLoopAux fL fR max_frames rng fuel s).2.frame_count ≤ s.frame_count + fuel := by
  intro fuel
  induction fuel with
  | zero => intro s; simp [matchLoopAux]
  | succ n ih =>
    intro s
    simp only [matchLoopAux]
    split
    · rcases hstep : matchStep fL fR rng s with o | s1 <;> dsimp only
      · exact Nat.le_add_right _ _
      · have h1 := (matchStep_next_props fL fR rng s s1 hstep).1
        have h2 := ih s1
        omega
    · exact Nat.le_add_right _ _

/-- Exit-shape invariant of the match loop: entered with both scores at most
`WIN_SCORE`, every outcome with reason `"score"` names the strictly
higher-scoring side as winner with a winning score of at most `WIN_SCORE`,
and any exit whose final frame counter reached the ceiling with equal scores
is a `"frame_limit"` draw. -/
theorem matchLoopAux_outcome_props {α β : Type} (fL : α → GameState → Except PyErr (Int × α))
    (fR : β → GameState → Except PyErr (Int × β)) (max_frames : Nat) (rng : Rng) :
    ∀ (fuel : Nat) (s : MatchState α β),
      s.left_score ≤ WIN_SCORE → s.right_score ≤ WIN_SCORE →
      ∀ o fin, matchLoopAux fL fR max_frames rng fuel s = (o, fin) →
      (o.reason = "score" →
        ((o.winner = "left" ∧ o.right_score < o.left_score ∧ o.left_score ≤ WIN_SCORE) ∨
         (o.winner = "right" ∧ o.left_score < o.right_score ∧ o.right_score ≤ WIN_SCORE))) ∧
      (fin.frame_count = max_frames → o.left_score = o.right_score →
        o.winner = "draw" ∧ o.reason = "frame_limit") := by
  intro fuel
  induction fuel with
  | zero =>
    intro s hls hrs o fin h
    simp only [matchLoopAux] at h
    injection h with ho hfin
    subst ho
    subst hfin
    unfold finishOutcome
    split_ifs with h1 h2 <;> dsimp only
    · exact ⟨fun _ => Or.inl ⟨rfl, h1, hls⟩, fun _ heq => absurd heq (by omega)⟩
    · exact ⟨fun _ => Or.inr ⟨rfl, h2, hrs⟩, fun _ heq => absurd heq (by omega)⟩
    · exact ⟨fun hr => absurd hr (by decide), fun _ _ => ⟨rfl, rfl⟩⟩
  | succ n ih =>
    intro s hls hrs o fin h
    simp only [matchLoopAux] at h
    by_cases hguard :
        s.left_score < WIN_SCORE ∧ s.right_score < WIN_SCORE ∧ s.frame_count < max_frames
    · rw [if_pos hguard] at h
      rcases hstep : matchStep fL fR rng s with o1 | s1
      · rw [hstep] at h
        dsimp only at h
        injection h with ho hfin
        subst ho
        subst hfin
        rcases matchStep_done_cases fL fR rng s o1 hstep with hcase | hcase <;>
            subst hcase <;> dsimp only
        · exact ⟨fun hr => absurd hr (by decide), fun hf _ => absurd hf (by omega)⟩
        · exact ⟨fun hr => absurd hr (by decide), fun hf _ => absurd hf (by omega)⟩
      · rw [hstep] at h
        dsimp only at h
        have hnext := matchStep_next_props fL fR rng s s1 hstep
        exact ih s1 (by omega) (by omega) o fin h
    · rw [if_neg hguard] at h
      injection h with ho hfin
      subst ho
      subst hfin
      unfold finishOutcome
      split_ifs with h1 h2 <;> dsimp only
      · exact ⟨fun _ => Or.inl ⟨rfl, h1, hls⟩, fun _ heq => absurd heq (by omega)⟩
      · exact ⟨fun _ => Or.inr ⟨rfl, h2, hrs⟩, fun _ heq => absurd heq (by omega)⟩
      · exact ⟨fun hr => absurd hr (by decide), fun _ _ => ⟨rfl, rfl⟩⟩

/-! ## Claims -/

/-- C1.  The claim says `create_ai` maps each of the four valid
(case-insensitive, stripped) names to a controller instance exposing
`choose_move`, such that the Match Runner's per-frame invocation of that
operation succeeds, and rejects other names with a `ValueError` naming the
valid set.  The rejection half is true, and `create_ai` does return
normally for the four names — but it returns the plain tuple
`(choose_move_function, display_name)`, and the runner's attribute access
`ai.choose_move(state)` on a tuple raises `AttributeError` on every frame,
so the per-frame invocation never succeeds: `create_ai` contradicts its own
callers (`run_single_ai_match` and `run_interactive_mode` read
`.choose_move` and `.name` on the returned value). -/
theorem C1_create_ai_returns_tuple_not_controller :
    create_ai "tracking" = .ok (.tracking, "TrackingAI") ∧
    create_ai " Reference " = .ok (.reference 0 MOVE_STAY, "ReferenceAI") ∧
    create_ai "RANDOM" = .ok (.random, "RandomAI") ∧
    create_ai "student" = .ok (.student, "StudentAI") ∧
    (∀ pair state, tupleDecisionCall pair state = .error .attributeError) ∧
    create_ai "minimax" =
      .error "Unknown AI. Choose from: tracking, reference, random, student" :=
  ⟨rfl, rfl, rfl, rfl, fun _ _ => rfl, rfl⟩

/-- C2.  The claimed end-to-end run (reference vs tracking, win threshold 7,
frame ceiling 2700) does terminate without an unhandled error and within
2700 frames — but not with reason `"score"` or `"frame_limit"`: because
`create_ai` returns a tuple, the very first `left_ai.choose_move(...)` call
raises `AttributeError`, the `try/except` catches it, and the match ends on
frame 0 with `("right", 0, 0, "left_ai_error")`.  The result is independent
of the random seed, so the theorem quantifies over every random stream. -/
theorem C2_seeded_match_ends_with_left_ai_error :
    ∀ rng : Rng,
      run_single_ai_match "reference" "tracking" DEFAULT_MAX_MATCH_FRAMES rng =
        .ok ⟨"right", 0, 0, "left_ai_error"⟩ :=
  fun _ => rfl

set_option maxRecDepth 20000 in
/-- C3, counterexample.  The claim says a result with reason `"score"` has
the winner at exactly the win threshold 7.  False: the loop also returns
reason `"score"` when the frame ceiling expires with unequal scores.  With
a stay-put left controller and an always-up right controller, direction
draws `(+1, +1)`, and a 79-frame ceiling, the left side scores once (frame
79 is reached just after the first point) and the match reports winner
`"left"` with score 1 and reason `"score"`. -/
theorem C3_counterexample_score_reason_below_threshold :
    (runMatch alwaysStay alwaysUp () () 79 constRng).1 =
      ⟨"left", 1, 0, "score"⟩ ∧
    (runMatch alwaysStay alwaysUp () () 79 constRng).1.reason = "score" ∧
    (runMatch alwaysStay alwaysUp () () 79 constRng).1.left_score ≠ WIN_SCORE := by
  decide

/-- C3, amended.  For every match result of the Match Runner loop (over any
pair of controllers): if the reason is `"score"` then the winner is the
strictly higher-scoring side and its score is at most the win threshold 7
(it need not equal 7 — a frame-ceiling exit with unequal scores also
reports `"score"`); and if the frame ceiling was reached with equal scores,
the result is a draw with reason `"frame_limit"`. -/
theorem C3_amended_score_reason_winner_higher {α β : Type}
    (fL : α → GameState → Except PyErr (Int × α))
    (fR : β → GameState → Except PyErr (Int × β)) (a : α) (b : β)
    (max_frames : Nat) (rng : Rng) (o : MatchOutcome) (fin : MatchState α β)
    (h : runMatch fL fR a b max_frames rng = (o, fin)) :
    (o.reason = "score" →
      ((o.winner = "left" ∧ o.right_score < o.left_score ∧ o.left_score ≤ WIN_SCORE) ∨
       (o.winner = "right" ∧ o.left_score < o.right_score ∧ o.right_score ≤ WIN_SCORE))) ∧
    (fin.frame_count = max_frames → o.left_score = o.right_score →
      o.winner = "draw" ∧ o.reason = "frame_limit") :=
  matchLoopAux_outcome_props fL fR max_frames rng max_frames
    (initMatchState a b rng) (Nat.zero_le _) (Nat.zero_le _) o fin h

set_option maxRecDepth 20000 in
/-- C3, witness: the amended statement evaluated on the concrete 79-frame
run of the counterexample, whose reason is `"score"` with winner `"left"`
at score 1. -/
theorem C3_witness_amended_on_concrete_run :
    (runMatch alwaysStay alwaysUp () () 79 constRng).1.winner = "left" ∧
    (runMatch alwaysStay alwaysUp () () 79 constRng).1.right_score <
      (runMatch alwaysStay alwaysUp () () 79 constRng).1.left_score ∧
    (runMatch alwaysStay alwaysUp () () 79 constRng).1.left_score ≤ WIN_SCORE := by
  rcases (C3_amended_score_reason_winner_higher alwaysStay alwaysUp () () 79 constRng
      (runMatch alwaysStay alwaysUp () () 79 constRng).1
      (runMatch alwaysStay alwaysUp () () 79 constRng).2 rfl).1 (by decide) with hc | hc
  · exact hc
  · exact absurd hc.1 (by decide)

/-- C4.  If a side's decision call raises on some frame (a loop state with
the `while` guard true and at least one frame of fuel), the loop returns at
once: a left-side error yields winner `"right"` with reason
`"left_ai_error"`, a right-side error (after a successful left call) yields
winner `"left"` with reason `"right_ai_error"`; in both cases the reported
scores are exactly the scores before the error frame — no physics is
advanced — and the loop returns a normal value, so the error never escapes
`run_single_ai_match`. -/
theorem C4_controller_error_ends_match {α β : Type}
    (fL : α → GameState → Except PyErr (Int × α))
    (fR : β → GameState → Except PyErr (Int × β))
    (max_frames : Nat) (rng : Rng) (fuel : Nat) (s : MatchState α β)
    (hls : s.left_score < WIN_SCORE) (hrs : s.right_score < WIN_SCORE)
    (hf : s.frame_count < max_frames) :
    (∀ e, fL s.left_ctrl (leftSnapshot s) = .error e →
      matchLoopAux fL fR max_frames rng (fuel + 1) s =
        (⟨"right", s.left_score, s.right_score, "left_ai_error"⟩, s)) ∧
    (∀ m a e, fL s.left_ctrl (leftSnapshot s) = .ok (m, a) →
      fR s.right_ctrl (rightSnapshot s) = .error e →
      matchLoopAux fL fR max_frames rng (fuel + 1) s =
        (⟨"left", s.left_score, s.right_score, "right_ai_error"⟩, s)) := by
  constructor
  · intro e he
    simp only [matchLoopAux]
    rw [if_pos ⟨hls, hrs, hf⟩]
    unfold matchStep
    rw [he]
  · intro m a e hok he
    simp only [matchLoopAux]
    rw [if_pos ⟨hls, hrs, hf⟩]
    unfold matchStep
    rw [hok, he]

/-- C4, witness: a first-frame left-side error and a first-frame right-side
error, each on the concrete initial state, via the theorem. -/
theorem C4_witness_first_frame_errors :
    matchLoopAux alwaysRaise alwaysStay 5 constRng 5 (initMatchState () () constRng) =
      (⟨"right", 0, 0, "left_ai_error"⟩, initMatchState () () constRng) ∧
    matchLoopAux alwaysStay alwaysRaise 5 constRng 5 (initMatchState () () constRng) =
      (⟨"left", 0, 0, "right_ai_error"⟩, initMatchState () () constRng) := by
  constructor
  · exact (C4_controller_error_ends_match alwaysRaise alwaysStay 5 constRng 4
      (initMatchState () () constRng) (by decide) (by decide) (by decide)).1
      .attributeError rfl
  · exact (C4_controller_error_ends_match alwaysStay alwaysRaise 5 constRng 4
      (initMatchState () () constRng) (by decide) (by decide) (by decide)).2
      0 () .attributeError rfl rfl

/-- C6.  For any pair of controllers (controllers are total decision
functions here, i.e. their calls always return), the match loop with frame
ceiling `F` executes at most `F` full iterations before returning: every
iteration increments the frame counter by exactly one, and the final frame
counter never exceeds `F`. -/
theorem C6_match_terminates_within_frame_ceiling {α β : Type}
    (fL : α → GameState → Except PyErr (Int × α))
    (fR : β → GameState → Except PyErr (Int × β)) (a : α) (b : β)
    (max_frames : Nat) (rng : Rng) :
    (runMatch fL fR a b max_frames rng).2.frame_count ≤ max_frames := by
  have h := matchLoopAux_frame_le fL fR max_frames rng max_frames (initMatchState a b rng)
  have h0 : (initMatchState a b rng).frame_count = 0 := rfl
  rw [h0] at h
  exact le_of_le_of_eq h (Nat.zero_add max_frames)

/-- C5.  For any in-range configuration (at least one match, required rate
within `[0, 1]` — the range the CLI documents; out-of-range values are
clamped by the code) and any sequence of per-match outcomes, the benchmark
prints `Result: PASS` and returns exit status 0 exactly when the
specification's pass condition (`benchmark_pass_spec`) holds — decisive
count at least `max(5, matches/4)`, decisive win rate (0 if no decisive
matches) at least the required rate, zero candidate errors — and otherwise
prints `Result: FAIL` and returns exit status 1. -/
theorem C5_benchmark_pass_iff (args : BenchArgs) (results : Nat → MatchOutcome)
    (h1 : 1 ≤ args.num_matches) (h2 : 0 ≤ args.pass_win_rate)
    (h3 : args.pass_win_rate ≤ 1) :
    run_benchmark args results =
      if benchmark_pass_spec args results then (0, "Result: PASS")
      else (1, "Result: FAIL") := by
  have hm : max 1 args.num_matches = args.num_matches := max_eq_right h1
  have hp : min (max args.pass_win_rate 0) 1 = args.pass_win_rate := by
    rw [max_eq_left h2, min_eq_left h3]
  have hrate :
      (if (0 : Nat) < countWinner results args.num_matches.toNat "right" +
          countWinner results args.num_matches.toNat "left" then
        ((countWinner results args.num_matches.toNat "right" : Nat) : ℚ) /
          ((countWinner results args.num_matches.toNat "right" +
            countWinner results args.num_matches.toNat "left" : Nat) : ℚ)
      else 0) =
      (if countWinner results args.num_matches.toNat "right" +
          countWinner results args.num_matches.toNat "left" = 0 then 0
      else ((countWinner results args.num_matches.toNat "right" : Nat) : ℚ) /
          ((countWinner results args.num_matches.toNat "right" +
            countWinner results args.num_matches.toNat "left" : Nat) : ℚ)) := by
    rcases Nat.eq_zero_or_pos
        (countWinner results args.num_matches.toNat "right" +
          countWinner results args.num_matches.toNat "left") with hd | hd
    · rw [if_neg (by omega), if_pos hd]
    · rw [if_pos hd, if_neg (by omega)]
  simp only [run_benchmark, benchmark_pass_spec, hm, hp, gt_iff_lt, hrate,
    Bool.and_eq_true, decide_eq_true_eq, and_assoc]

/-- C5, witness: with 25 matches, required rate 3/5 and 16-4-5
wins-losses-draws the benchmark passes with exit code 0; with one
candidate-controller error among otherwise passing outcomes it fails with
exit code 1 regardless of the win rate. -/
theorem C5_witness_pass_and_fail :
    run_benchmark benchArgsFixture benchResultsFixture = (0, "Result: PASS") ∧
    run_benchmark benchArgsFixture benchResultsErrFixture = (1, "Result: FAIL") := by
  have hcw : countWinner benchResultsFixture (Int.toNat 25) "right" = 16 := by decide
  have hrw : countWinner benchResultsFixture (Int.toNat 25) "left" = 4 := by decide
  have herr : countStudentErrors benchResultsFixture (Int.toNat 25) = 0 := by decide
  have herr2 : countStudentErrors benchResultsErrFixture (Int.toNat 25) = 1 := by decide
  have hs1 : benchmark_pass_spec benchArgsFixture benchResultsFixture = true := by
    simp only [benchmark_pass_spec, benchArgsFixture, hcw, hrw, herr]
    norm_num
    decide
  have hs2 : benchmark_pass_spec benchArgsFixture benchResultsErrFixture = false := by
    simp only [benchmark_pass_spec, benchArgsFixture, herr2]
    simp
  constructor
  · rw [C5_benchmark_pass_iff benchArgsFixture benchResultsFixture
      (by norm_num [benchArgsFixture]) (by norm_num [benchArgsFixture])
      (by norm_num [benchArgsFixture]), hs1]
    rfl
  · rw [C5_benchmark_pass_iff benchArgsFixture benchResultsErrFixture
      (by norm_num [benchArgsFixture]) (by norm_num [benchArgsFixture])
      (by norm_num [benchArgsFixture]), hs2]
    rfl

/-- The Python float remainder is nonnegative for a positive modulus. -/
theorem pymod_nonneg (a b : ℚ) (hb : 0 < b) : 0 ≤ pymod a b := by
  unfold pymod
  have h := Int.floor_le (a / b)
  have h2 : b * (⌊a / b⌋ : ℚ) ≤ b * (a / b) :=
    mul_le_mul_of_nonneg_left h (le_of_lt hb)
  rw [mul_div_cancel₀ a (ne_of_gt hb)] at h2
  linarith

/-- The Python float remainder is below a positive modulus. -/
theorem pymod_lt (a b : ℚ) (hb : 0 < b) : pymod a b < b := by
  unfold pymod
  have h := Int.lt_floor_add_one (a / b)
  have h2 : b * (a / b) < b * ((⌊a / b⌋ : ℚ) + 1) := (mul_lt_mul_left hb).mpr h
  rw [mul_div_cancel₀ a (ne_of_gt hb)] at h2
  nlinarith

/-- The Python float remainder is invariant under adding the modulus. -/
theorem pymod_add_right (a b : ℚ) (hb : b ≠ 0) : pymod (a + b) b = pymod a b := by
  unfold pymod
  have hdiv : (a + b) / b = a / b + 1 := by field_simp
  rw [hdiv, Int.floor_add_one]
  push_cast
  ring

/-- C7.  `reflect_y` is periodic with period `2H` for every `H > 0`, maps
into `[0, H]`, returns 0 for height 0, and is the triangle-wave fold: the
residue `v mod 2H` where that residue is at most `H`, and `2H` minus the
residue otherwise. -/
theorem C7_reflect_y_props (v H : ℚ) :
    (0 < H → reflect_y (v + 2 * H) H = reflect_y v H) ∧
    (0 < H → 0 ≤ reflect_y v H ∧ reflect_y v H ≤ H) ∧
    reflect_y v 0 = 0 ∧
    (0 < H → pymod v (2 * H) ≤ H → reflect_y v H = pymod v (2 * H)) ∧
    (0 < H → H < pymod v (2 * H) → reflect_y v H = 2 * H - pymod v (2 * H)) := by
  refine ⟨?_, ?_, ?_, ?_, ?_⟩
  · intro hH
    have h2H : (0 : ℚ) < 2 * H := by linarith
    have hper := pymod_add_right v (2 * H) (ne_of_gt h2H)
    simp only [reflect_y, if_neg (not_le.mpr hH)]
    rw [hper]
  · intro hH
    have h2H : (0 : ℚ) < 2 * H := by linarith
    have h0 := pymod_nonneg v (2 * H) h2H
    have hlt := pymod_lt v (2 * H) h2H
    simp only [reflect_y, if_neg (not_le.mpr hH)]
    split_ifs with hfold
    · constructor <;> linarith
    · constructor <;> linarith
  · simp [reflect_y]
  · intro hH hle
    simp only [reflect_y, if_neg (not_le.mpr hH)]
    rw [if_neg (not_lt.mpr hle)]
  · intro hH hgt
    simp only [reflect_y, if_neg (not_le.mpr hH)]
    rw [if_pos hgt]

/-- C7, witness: the properties evaluated at concrete inputs — periodicity
and bounds at `(v, H) = (5, 3)`, the zero-height case at `(5, 0)`, the
no-fold case at `(1, 3)` (residue 1 ≤ 3) and the folded case at `(5, 3)`
(residue 5 > 3). -/
theorem C7_witness_concrete_reflect :
    reflect_y (5 + 2 * 3) 3 = reflect_y 5 3 ∧
    (0 ≤ reflect_y 5 3 ∧ reflect_y 5 3 ≤ 3) ∧
    reflect_y 5 0 = 0 ∧
    reflect_y 1 3 = pymod 1 (2 * 3) ∧
    reflect_y 5 3 = 2 * 3 - pymod 5 (2 * 3) := by
  have h1 : pymod 1 (2 * 3) ≤ (3 : ℚ) := by rw [pymod]; norm_num
  have h2 : (3 : ℚ) < pymod 5 (2 * 3) := by rw [pymod]; norm_num
  exact ⟨(C7_reflect_y_props 5 3).1 (by norm_num),
    (C7_reflect_y_props 5 3).2.1 (by norm_num),
    (C7_reflect_y_props 5 0).2.2.1,
    (C7_reflect_y_props 1 3).2.2.2.1 (by norm_num) h1,
    (C7_reflect_y_props 5 3).2.2.2.2 (by norm_num) h2⟩

/-- The clamped vertical speed always lies within `±BALL_MAX_Y_SPEED`. -/
theorem clampY_bounds (v : Int) :
    -BALL_MAX_Y_SPEED ≤ clampY v ∧ clampY v ≤ BALL_MAX_Y_SPEED := by
  simp only [clampY, BALL_MAX_Y_SPEED]
  split_ifs <;> omega

/-- C8.  On a paddle collision — rectangle overlap of the moved ball `mv`
with a paddle while the ball moves toward it — and provided the flush
reposition does not cross a scoring boundary (true of the actual paddle
geometry), `update_ball` repositions the ball flush against the paddle face
(`x = left_paddle.right`, resp. `x = right_paddle.left - ball.w`), exactly
negates the horizontal velocity (so its sign reverses), sets the vertical
velocity to the wall-adjusted `vy` plus `int` of the contact offset from
the paddle's center divided by half the paddle height times 3, clamped —
and that clamped value always lies within `±BALL_MAX_Y_SPEED` (= 7); the
scores are unchanged. -/
theorem C8_paddle_bounce (ball lp rp : Rect) (vx vy : Int) (ls rs : Nat) (rng : Rng)
    (idx : Nat) (mv : Rect) (hmv : mv = { ball with x := ball.x + vx, y := ball.y + vy })
    (wvy : Int) (hwvy : wvy = if mv.top ≤ 0 ∨ mv.bottom ≥ HEIGHT then -vy else vy) :
    (collide mv lp = true → vx < 0 → 0 < lp.right → lp.right + ball.w < WIDTH →
      update_ball ball lp rp vx vy ls rs rng idx =
        ⟨{ mv with x := lp.right }, lp, rp, -vx,
          clampY (wvy + pyInt (((mv.centery - lp.centery : Int) : ℚ) /
            ((PADDLE_HEIGHT : ℚ) / 2) * 3)), ls, rs, idx⟩ ∧
      0 < -vx ∧
      -BALL_MAX_Y_SPEED ≤ clampY (wvy + pyInt (((mv.centery - lp.centery : Int) : ℚ) /
        ((PADDLE_HEIGHT : ℚ) / 2) * 3)) ∧
      clampY (wvy + pyInt (((mv.centery - lp.centery : Int) : ℚ) /
        ((PADDLE_HEIGHT : ℚ) / 2) * 3)) ≤ BALL_MAX_Y_SPEED) ∧
    (collide mv rp = true → 0 < vx → 0 < rp.left - ball.w → rp.left < WIDTH →
      update_ball ball lp rp vx vy ls rs rng idx =
        ⟨{ mv with x := rp.left - ball.w }, lp, rp, -vx,
          clampY (wvy + pyInt (((mv.centery - rp.centery : Int) : ℚ) /
            ((PADDLE_HEIGHT : ℚ) / 2) * 3)), ls, rs, idx⟩ ∧
      -vx < 0 ∧
      -BALL_MAX_Y_SPEED ≤ clampY (wvy + pyInt (((mv.centery - rp.centery : Int) : ℚ) /
        ((PADDLE_HEIGHT : ℚ) / 2) * 3)) ∧
      clampY (wvy + pyInt (((mv.centery - rp.centery : Int) : ℚ) /
        ((PADDLE_HEIGHT : ℚ) / 2) * 3)) ≤ BALL_MAX_Y_SPEED) := by
  subst hmv
  subst hwvy
  constructor
  · intro hcol hvx hpos hlt
    refine ⟨?_, by omega, (clampY_bounds _).1, (clampY_bounds _).2⟩
    simp only [update_ball, bounce_off_paddle]
    rw [if_pos ⟨hcol, hvx⟩]
    simp only [update_ball_scoring]
    rw [if_neg (by simp only [Rect.left, Rect.right] at hpos ⊢; omega),
      if_neg (by simp only [Rect.right] at hlt ⊢; omega)]
    rfl
  · intro hcol hvx hpos hlt
    refine ⟨?_, by omega, (clampY_bounds _).1, (clampY_bounds _).2⟩
    simp only [update_ball, bounce_off_paddle]
    rw [if_neg (fun hcon => absurd hcon.2 (by omega)), if_pos ⟨hcol, hvx⟩]
    simp only [update_ball_scoring]
    rw [if_neg (by simp only [Rect.left] at hpos ⊢; omega),
      if_neg (by simp only [Rect.left, Rect.right] at hlt ⊢; omega)]
    rfl

/-- C8, witness: two concrete paddle hits (one per side, contact at the
paddle's center, so the offset term is 0): the horizontal velocity flips
sign, the ball is flush against the paddle face, the vertical speed stays
within the clamp, the scores stay put. -/
theorem C8_witness_concrete_bounces :
    update_ball ⟨44, 241, 14, 14⟩ ⟨30, 205, 12, 90⟩ ⟨758, 205, 12, 90⟩ (-5) 2 0 0 constRng 0 =
      ⟨⟨42, 243, 14, 14⟩, ⟨30, 205, 12, 90⟩, ⟨758, 205, 12, 90⟩, 5, 2, 0, 0, 0⟩ ∧
    update_ball ⟨744, 241, 14, 14⟩ ⟨30, 205, 12, 90⟩ ⟨758, 205, 12, 90⟩ 5 2 0 0 constRng 0 =
      ⟨⟨744, 243, 14, 14⟩, ⟨30, 205, 12, 90⟩, ⟨758, 205, 12, 90⟩, -5, 2, 0, 0, 0⟩ := by
  have h1 := (C8_paddle_bounce ⟨44, 241, 14, 14⟩ ⟨30, 205, 12, 90⟩ ⟨758, 205, 12, 90⟩
    (-5) 2 0 0 constRng 0 ⟨39, 243, 14, 14⟩ (by decide) 2 (by decide)).1
    (by decide) (by decide) (by decide) (by decide)
  have h2 := (C8_paddle_bounce ⟨744, 241, 14, 14⟩ ⟨30, 205, 12, 90⟩ ⟨758, 205, 12, 90⟩
    5 2 0 0 constRng 0 ⟨749, 243, 14, 14⟩ (by decide) 2 (by decide)).2
    (by decide) (by decide) (by decide) (by decide)
  have hc1 : ((⟨39, 243, 14, 14⟩ : Rect).centery - (⟨30, 205, 12, 90⟩ : Rect).centery) = 0 := by
    decide
  have hc2 : ((⟨749, 243, 14, 14⟩ : Rect).centery - (⟨758, 205, 12, 90⟩ : Rect).centery) = 0 := by
    decide
  constructor
  · rw [h1.1, hc1]
    norm_num [pyInt, clampY, BALL_MAX_Y_SPEED]
    decide
  · rw [h2.1, hc2]
    norm_num [pyInt, clampY, BALL_MAX_Y_SPEED]
    decide

/-- C9.  Whenever the moved ball `mv` crosses the left boundary
(`mv.left ≤ 0`) — or, not having crossed the left one, crosses the right
boundary (`mv.right ≥ WIDTH`) — without a paddle collision absorbing the
frame, `update_ball` increments exactly the scoring side's counter by one,
recenters the ball on the window center (`centerx = WIDTH/2`,
`centery = HEIGHT/2`), and returns a velocity whose components are
`BALL_START_SPEED` (= 5) times the per-axis sign drawn by
`random.choice([-1, 1])`, so each component has magnitude 5 and its sign
follows the (uniform) random draw. -/
theorem C9_scoring_resets_ball (ball lp rp : Rect) (vx vy : Int) (ls rs : Nat) (rng : Rng)
    (idx : Nat) (mv : Rect) (hmv : mv = { ball with x := ball.x + vx, y := ball.y + vy })
    (hL : ¬(collide mv lp = true ∧ vx < 0))
    (hR : ¬(collide mv rp = true ∧ vx > 0)) :
    (mv.left ≤ 0 →
      update_ball ball lp rp vx vy ls rs rng idx =
        ⟨{ mv with x := WIDTH.fdiv 2 - mv.w.fdiv 2, y := HEIGHT.fdiv 2 - mv.h.fdiv 2 },
          lp, rp, BALL_START_SPEED * pychoice2 (-1) 1 (rng.bit idx),
          BALL_START_SPEED * pychoice2 (-1) 1 (rng.bit (idx + 1)), ls, rs + 1, idx + 2⟩ ∧
      (update_ball ball lp rp vx vy ls rs rng idx).ball.centerx = WIDTH.fdiv 2 ∧
      (update_ball ball lp rp vx vy ls rs rng idx).ball.centery = HEIGHT.fdiv 2 ∧
      ((update_ball ball lp rp vx vy ls rs rng idx).vx = BALL_START_SPEED ∨
        (update_ball ball lp rp vx vy ls rs rng idx).vx = -BALL_START_SPEED) ∧
      ((update_ball ball lp rp vx vy ls rs rng idx).vy = BALL_START_SPEED ∨
        (update_ball ball lp rp vx vy ls rs rng idx).vy = -BALL_START_SPEED)) ∧
    (¬(mv.left ≤ 0) → mv.right ≥ WIDTH →
      update_ball ball lp rp vx vy ls rs rng idx =
        ⟨{ mv with x := WIDTH.fdiv 2 - mv.w.fdiv 2, y := HEIGHT.fdiv 2 - mv.h.fdiv 2 },
          lp, rp, BALL_START_SPEED * pychoice2 (-1) 1 (rng.bit idx),
          BALL_START_SPEED * pychoice2 (-1) 1 (rng.bit (idx + 1)), ls + 1, rs, idx + 2⟩ ∧
      (update_ball ball lp rp vx vy ls rs rng idx).ball.centerx = WIDTH.fdiv 2 ∧
      (update_ball ball lp rp vx vy ls rs rng idx).ball.centery = HEIGHT.fdiv 2 ∧
      ((update_ball ball lp rp vx vy ls rs rng idx).vx = BALL_START_SPEED ∨
        (update_ball ball lp rp vx vy ls rs rng idx).vx = -BALL_START_SPEED) ∧
      ((update_ball ball lp rp vx vy ls rs rng idx).vy = BALL_START_SPEED ∨
        (update_ball ball lp rp vx vy ls rs rng idx).vy = -BALL_START_SPEED)) := by
  subst hmv
  constructor
  · intro hscore
    simp only [update_ball, update_ball_scoring, reset_ball]
    rw [if_neg hL, if_neg hR, if_pos hscore]
    refine ⟨rfl, ?_, ?_, ?_, ?_⟩
    · simp only [Rect.centerx]
      omega
    · simp only [Rect.centery]
      omega
    · cases hbit : rng.bit idx <;> simp [pychoice2, hbit, BALL_START_SPEED]
    · cases hbit : rng.bit (idx + 1) <;> simp [pychoice2, hbit, BALL_START_SPEED]
  · intro hnl hscore
    simp only [update_ball, update_ball_scoring, reset_ball]
    rw [if_neg hL, if_neg hR, if_neg hnl, if_pos hscore]
    refine ⟨rfl, ?_, ?_, ?_, ?_⟩
    · simp only [Rect.centerx]
      omega
    · simp only [Rect.centery]
      omega
    · cases hbit : rng.bit idx <;> simp [pychoice2, hbit, BALL_START_SPEED]
    · cases hbit : rng.bit (idx + 1) <;> simp [pychoice2, hbit, BALL_START_SPEED]

/-- C9, witness: a concrete left-boundary crossing (right side scores) and a
concrete right-boundary crossing (left side scores); under the fixed random
stream both direction draws pick `+1`, giving velocity `(5, 5)` and the ball
recentred at `(400, 250)` — here `x = 393`, `y = 243` for the 14-pixel ball. -/
theorem C9_witness_concrete_scores :
    update_ball ⟨2, 100, 14, 14⟩ ⟨30, 205, 12, 90⟩ ⟨758, 205, 12, 90⟩ (-5) 0 0 0 constRng 0 =
      ⟨⟨393, 243, 14, 14⟩, ⟨30, 205, 12, 90⟩, ⟨758, 205, 12, 90⟩, 5, 5, 0, 1, 2⟩ ∧
    update_ball ⟨784, 100, 14, 14⟩ ⟨30, 205, 12, 90⟩ ⟨758, 205, 12, 90⟩ 5 0 0 0 constRng 0 =
      ⟨⟨393, 243, 14, 14⟩, ⟨30, 205, 12, 90⟩, ⟨758, 205, 12, 90⟩, 5, 5, 1, 0, 2⟩ := by
  have h1 := (C9_scoring_resets_ball ⟨2, 100, 14, 14⟩ ⟨30, 205, 12, 90⟩ ⟨758, 205, 12, 90⟩
    (-5) 0 0 0 constRng 0 ⟨-3, 100, 14, 14⟩ (by decide) (by decide) (by decide)).1 (by decide)
  have h2 := (C9_scoring_resets_ball ⟨784, 100, 14, 14⟩ ⟨30, 205, 12, 90⟩ ⟨758, 205, 12, 90⟩
    5 0 0 0 constRng 0 ⟨789, 100, 14, 14⟩ (by decide) (by decide) (by decide)).2
    (by decide) (by decide)
  constructor
  · rw [h1.1]
    decide
  · rw [h2.1]
    decide

/-- C10.  `update_ball` returns the two paddle rectangles exactly as it
received them (it only reads them), and the ball keeps its width and
height — only the ball's position changes; the score and velocity updates
are visible only in the returned value. -/
theorem C10_update_ball_mutates_only_ball_position (ball lp rp : Rect) (vx vy : Int)
    (ls rs : Nat) (rng : Rng) (idx : Nat) :
    (update_ball ball lp rp vx vy ls rs rng idx).left_paddle = lp ∧
    (update_ball ball lp rp vx vy ls rs rng idx).right_paddle = rp ∧
    (update_ball ball lp rp vx vy ls rs rng idx).ball.w = ball.w ∧
    (update_ball ball lp rp vx vy ls rs rng idx).ball.h = ball.h := by
  simp only [update_ball, update_ball_scoring, reset_ball]
  split_ifs <;> simp

end Pong
